import Mathlib

/-!
Shallow embedding of the udisks spawned-job supervisor and its helper
utilities (src/udisksspawnedjob.c, src/udisksmount.c, src/udisksdaemonutil.c,
udisks/udiskserror.c), together with theorems settling the specification
claims about them.

Machine integers are modelled as `Int`/`Nat` with explicit reductions
modulo powers of two where C truncation or wrap-around matters.  C strings
are modelled as `List Nat` of their bytes (no interior 0 byte; the NUL
terminator is implicit) or as Lean `String` where only concatenation is
involved.  External GLib collaborators (the parser, the spawner, channel
reads and writes, the event loop) enter as explicit oracle parameters or
as a task queue; the control flow acting on their results is transcribed
from the C sources.
-/

/-- A GLib `GError`: domain quark (as its registered string), code, message. -/
structure GErrorL where
  domain : String
  code : Int
  message : String
deriving DecidableEq, Repr

/-- The error produced by `g_cancellable_set_error_if_cancelled` on a tripped
cancellable: domain `g-io-error-quark`, code `G_IO_ERROR_CANCELLED` (= 19),
message "Operation was cancelled". -/
def cancelledError : GErrorL :=
  { domain := "g-io-error-quark", code := 19, message := "Operation was cancelled" }

/-- glibc `__WTERMSIG(status) = (status) & 0x7f`; bitwise AND of a
two's-complement `int` with `0x7f` is the nonnegative remainder mod 128. -/
def wtermsig (status : Int) : Int := status.emod 128

/-- glibc `WIFEXITED(status) = (__WTERMSIG(status) == 0)`. -/
def wifexited (status : Int) : Bool := wtermsig status == 0

/-- glibc `WEXITSTATUS(status) = ((status) & 0xff00) >> 8`. -/
def wexitstatus (status : Int) : Int := (status.emod 65536) / 256

/-- Conversion of an `int` value to `signed char` by two's-complement
truncation to 8 bits, as gcc implements the C cast. -/
def signedChar (x : Int) : Int := (x + 128).emod 256 - 128

/-- glibc `WIFSIGNALED(status) =
(((signed char) (((status) & 0x7f) + 1) >> 1) > 0)`; the arithmetic right
shift by one of a `signed char` value is exact division by 2 here
(`-128 >> 1 = -64`), which truncating `Int` division also gives. -/
def wifsignaled (status : Int) : Bool := 0 < signedChar (wtermsig status + 1) / 2

/-- `get_signal_name` from udisksspawnedjob.c: the switch over the 28
`_HANDLE_SIG` cases, with the signal numbers the macros have on Linux,
falling through to "UNKNOWN_SIGNAL". -/
def get_signal_name (signal_number : Int) : String :=
  if signal_number = 1 then "SIGHUP"
  else if signal_number = 2 then "SIGINT"
  else if signal_number = 3 then "SIGQUIT"
  else if signal_number = 4 then "SIGILL"
  else if signal_number = 6 then "SIGABRT"
  else if signal_number = 8 then "SIGFPE"
  else if signal_number = 9 then "SIGKILL"
  else if signal_number = 11 then "SIGSEGV"
  else if signal_number = 13 then "SIGPIPE"
  else if signal_number = 14 then "SIGALRM"
  else if signal_number = 15 then "SIGTERM"
  else if signal_number = 10 then "SIGUSR1"
  else if signal_number = 12 then "SIGUSR2"
  else if signal_number = 17 then "SIGCHLD"
  else if signal_number = 18 then "SIGCONT"
  else if signal_number = 19 then "SIGSTOP"
  else if signal_number = 20 then "SIGTSTP"
  else if signal_number = 21 then "SIGTTIN"
  else if signal_number = 22 then "SIGTTOU"
  else if signal_number = 7 then "SIGBUS"
  else if signal_number = 29 then "SIGPOLL"
  else if signal_number = 27 then "SIGPROF"
  else if signal_number = 31 then "SIGSYS"
  else if signal_number = 5 then "SIGTRAP"
  else if signal_number = 23 then "SIGURG"
  else if signal_number = 26 then "SIGVTALRM"
  else if signal_number = 24 then "SIGXCPU"
  else if signal_number = 25 then "SIGXFSZ"
  else "UNKNOWN_SIGNAL"

/-- The payload of the `UDisksJob::completed` signal emitted by
`udisks_job_emit_completed`. -/
structure JobCompletedEvent where
  success : Bool
  message : String
deriving DecidableEq, Repr

/-- `udisks_spawned_job_spawned_job_completed_default` from
udisksspawnedjob.c: the default class handler of `spawned-job-completed`,
synthesizing the `UDisksJob::completed` event it emits.  The `GString`
arguments are passed as the strings they hold. -/
def udisks_spawned_job_spawned_job_completed_default
    (command_line : String) (error : Option GErrorL) (status : Int)
    (standard_output standard_error : String) : JobCompletedEvent :=
  match error with
  | some e =>
      { success := false
        message := "Failed to execute command-line `" ++ command_line ++ "': " ++
          e.message ++ " (" ++ e.domain ++ ", " ++ toString e.code ++ ")" }
  | none =>
      if wifexited status && wexitstatus status == 0 then
        { success := true, message := "" }
      else
        let head :=
          if wifexited status then
            "Command-line `" ++ command_line ++ "' exited with non-zero exit status " ++
              toString (wexitstatus status) ++ ".\n"
          else if wifsignaled status then
            "Command-line `" ++ command_line ++ "' was signaled with signal " ++
              get_signal_name (wtermsig status) ++ " (" ++ toString (wtermsig status) ++ ").\n"
          else ""
        { success := false
          message := head ++ "stdout: `" ++ standard_output ++ "'\nstderr: `" ++
            standard_error ++ "'" }

/-- The signal-name translation table of `get_signal_name` as an association
list, pairing each Linux signal number handled by the switch with the name
the `_HANDLE_SIG` stringification yields. -/
def signalNameTable : List (Int × String) :=
  [(1, "SIGHUP"), (2, "SIGINT"), (3, "SIGQUIT"), (4, "SIGILL"), (6, "SIGABRT"),
   (8, "SIGFPE"), (9, "SIGKILL"), (11, "SIGSEGV"), (13, "SIGPIPE"), (14, "SIGALRM"),
   (15, "SIGTERM"), (10, "SIGUSR1"), (12, "SIGUSR2"), (17, "SIGCHLD"), (18, "SIGCONT"),
   (19, "SIGSTOP"), (20, "SIGTSTP"), (21, "SIGTTIN"), (22, "SIGTTOU"), (7, "SIGBUS"),
   (29, "SIGPOLL"), (27, "SIGPROF"), (31, "SIGSYS"), (5, "SIGTRAP"), (23, "SIGURG"),
   (26, "SIGVTALRM"), (24, "SIGXCPU"), (25, "SIGXFSZ")]

/-- The signal-case message exactly as the claim words it: quoting with plain
apostrophes and no space between the symbolic name and the parenthesized
number. -/
def claimSignalMessage (cmd : String) (s : Int) (out err : String) : String :=
  "Command-line '" ++ cmd ++ "' was signaled with signal " ++ get_signal_name s ++
    "(" ++ toString s ++ ").\nstdout: '" ++ out ++ "'\nstderr: '" ++ err ++ "'"

/-- glibc `strcmp` on two C strings given as their byte lists (bytes are
unsigned chars; neither list contains the terminating NUL): the difference of
the first differing pair of bytes, where running off the end of one string
compares its implicit NUL terminator against the other's next byte. -/
def strcmpBytes : List Nat → List Nat → Int
  | [], [] => 0
  | [], y :: _ => -(y : Int)
  | x :: _, [] => (x : Int)
  | x :: xs, y :: ys => if x = y then strcmpBytes xs ys else (x : Int) - (y : Int)

/-- Truncation of an unsigned 64-bit value to a 32-bit two's-complement
`gint`, as gcc performs the narrowing conversion. -/
def gintOfUInt64 (d : Nat) : Int :=
  if d % 4294967296 < 2147483648 then ((d % 4294967296 : Nat) : Int)
  else ((d % 4294967296 : Nat) : Int) - 4294967296

/-- A `UDisksMount` record from udisksmount.c: a mount path (C string bytes)
and a `dev_t` device number (unsigned 64-bit on Linux/glibc). -/
structure UDisksMount where
  mount_path : List Nat
  dev : Nat
deriving DecidableEq, Repr

/-- `udisks_mount_compare` from udisksmount.c:
`ret = g_strcmp0 (other_mount->mount_path, mount->mount_path)` and, when that
is zero, `ret = (mount->dev - other_mount->dev)` — an unsigned 64-bit
subtraction narrowed to the 32-bit `gint ret`. -/
def udisks_mount_compare (mount other_mount : UDisksMount) : Int :=
  if strcmpBytes other_mount.mount_path mount.mount_path ≠ 0 then
    strcmpBytes other_mount.mount_path mount.mount_path
  else gintOfUInt64 ((mount.dev + 18446744073709551616 - other_mount.dev) % 18446744073709551616)

/-- Lowercase hexadecimal digit for a value below 16, as printf renders
`%x`. -/
def hexChar (n : Nat) : Char := if n < 10 then Char.ofNat (48 + n) else Char.ofNat (87 + n)

/-- Hex digits of `n` (most significant first, no leading zeros); the fuel is
ample for 32-bit values. -/
def toHexFuel : Nat → Nat → List Char
  | 0, _ => []
  | fuel + 1, n => if n = 0 then [] else toHexFuel fuel (n / 16) ++ [hexChar (n % 16)]

/-- printf `%x` of an unsigned 32-bit value. -/
def printfHex (n : Nat) : List Char := if n = 0 then ['0'] else toHexFuel 32 n

/-- printf `%02x`: `%x` zero-padded on the left to a minimum width of 2. -/
def printf02x (n : Nat) : List Char :=
  List.replicate (2 - (printfHex n).length) '0' ++ printfHex n

/-- `udisks_safe_append_to_object_path` from udisksdaemonutil.c.  Each byte of
the UTF-8 C string `s` is read into `gint c` through `gchar`, which is signed
on Linux/x86-64, so bytes at or above 0x80 sign-extend to negative values.
Alphanumeric `c` is appended verbatim; any other byte is appended as `_`
followed by `g_string_append_printf (str, "_%02x", c)`, whose `%x` conversion
reads `c` as a 32-bit `unsigned int`. -/
def udisks_safe_append_to_object_path (str : List Char) (s : List Nat) : List Char :=
  s.foldl (fun (acc : List Char) (byte : Nat) =>
    let c : Int := if byte < 128 then (byte : Int) else (byte : Int) - 256
    if (65 ≤ c ∧ c ≤ 90) ∨ (97 ≤ c ∧ c ≤ 122) ∨ (48 ≤ c ∧ c ≤ 57) then
      acc ++ [Char.ofNat byte]
    else
      acc ++ '_' :: printf02x (c.emod 4294967296).toNat) str

/-- Modelled from the claim's words (which match the function's own doc
comment): an alphanumeric byte passes through and every other byte becomes an
underscore followed by exactly two lowercase hex digits of the byte's
value. -/
def claimSafeAppend (str : List Char) (s : List Nat) : List Char :=
  s.foldl (fun (acc : List Char) (byte : Nat) =>
    if (65 ≤ byte ∧ byte ≤ 90) ∨ (97 ≤ byte ∧ byte ≤ 122) ∨ (48 ≤ byte ∧ byte ≤ 57) then
      acc ++ [Char.ofNat byte]
    else
      acc ++ ['_', hexChar (byte / 16 % 16), hexChar (byte % 16)]) str

/-- `g_ascii_xdigit_value`: the value of an ASCII hex digit, `-1` for any
other byte. -/
def g_ascii_xdigit_value (c : Nat) : Int :=
  if 48 ≤ c ∧ c ≤ 57 then (c : Int) - 48
  else if 97 ≤ c ∧ c ≤ 102 then (c : Int) - 87
  else if 65 ≤ c ∧ c ≤ 70 then (c : Int) - 55
  else -1

/-- The byte `g_string_append_c` stores for
`val = (g_ascii_xdigit_value (a) << 4) | g_ascii_xdigit_value (b)`: the
`int` arithmetic is modelled at 32 bits (gcc two's complement, `-1 << 4`
giving `-16`) and `g_string_append_c`'s `gchar` argument keeps the low 8
bits. -/
def decodedHexByte (a b : Nat) : Nat :=
  Nat.lor ((((g_ascii_xdigit_value a).emod 4294967296).toNat * 16) % 4294967296)
    ((g_ascii_xdigit_value b).emod 4294967296).toNat % 256

/-- The accumulation loop of `udisks_decode_udev_string`: a backslash
followed by `x` and two more bytes appends the combined byte and skips the
escape; a backslash in any other position (not followed by `x`, or with the
string ending inside the escape) stops the loop with the output gathered so
far; every other byte is copied. -/
def decodeUdevLoop : List Nat → List Nat
  | [] => []
  | 92 :: x :: a :: b :: rest =>
      if x = 120 then decodedHexByte a b :: decodeUdevLoop rest
      else []
  | 92 :: _ => []
  | c :: rest => c :: decodeUdevLoop rest

/-- `g_utf8_validate (str, -1, &end_valid)` on a buffer given as its byte
list: `none` when the walk reaches the end of the buffer, or an embedded 0
byte (which the -1 length treats as the string's end), without finding an
invalid sequence; otherwise `some p` with `p` the offset at which `end_valid`
points.  Sequences must be shortest-form UTF-8 below 0x110000 excluding
surrogates. -/
def gUtf8Validate : List Nat → Nat → Option Nat
  | [], _ => none
  | b :: rest, pos =>
    if b = 0 then none
    else if b < 128 then gUtf8Validate rest (pos + 1)
    else if 194 ≤ b ∧ b ≤ 223 then
      match rest with
      | c1 :: rest2 =>
        if 128 ≤ c1 ∧ c1 ≤ 191 then gUtf8Validate rest2 (pos + 2) else some pos
      | [] => some pos
    else if 224 ≤ b ∧ b ≤ 239 then
      match rest with
      | c1 :: c2 :: rest2 =>
        if (128 ≤ c1 ∧ c1 ≤ 191) ∧ (128 ≤ c2 ∧ c2 ≤ 191) ∧
            (b ≠ 224 ∨ 160 ≤ c1) ∧ (b ≠ 237 ∨ c1 ≤ 159) then
          gUtf8Validate rest2 (pos + 3)
        else some pos
      | _ => some pos
    else if 240 ≤ b ∧ b ≤ 244 then
      match rest with
      | c1 :: c2 :: c3 :: rest2 =>
        if (128 ≤ c1 ∧ c1 ≤ 191) ∧ (128 ≤ c2 ∧ c2 ≤ 191) ∧ (128 ≤ c3 ∧ c3 ≤ 191) ∧
            (b ≠ 240 ∨ 144 ≤ c1) ∧ (b ≠ 244 ∨ c1 ≤ 143) then
          gUtf8Validate rest2 (pos + 4)
        else some pos
      | _ => some pos
    else some pos

/-- `udisks_decode_udev_string` from udisksdaemonutil.c: NULL propagates;
otherwise the escape loop runs, the result is validated as UTF-8, and on a
validation failure `g_strndup` keeps only the prefix before `end_valid`. -/
def udisks_decode_udev_string : Option (List Nat) → Option (List Nat)
  | none => none
  | some str =>
      match gUtf8Validate (decodeUdevLoop str) 0 with
      | none => some (decodeUdevLoop str)
      | some p => some ((decodeUdevLoop str).take p)

/-- The private state of a `UDisksSpawnedJob` (struct _UDisksSpawnedJob).
Pointers to channels and sources are modelled by whether they are non-NULL;
the `input_string_cursor` pointer is the byte offset it holds into
`input_string` (`none` for NULL); `GString` buffers are the byte lists they
hold (`none` for NULL); `main_context` and the GObject boilerplate carry no
behavior relevant to the claims and are omitted. -/
structure SpawnedJob where
  command_line : String
  input_string : Option (List Nat)
  input_string_cursor : Option Nat
  child_pid : Nat
  child_stdin_fd : Int
  child_stdout_fd : Int
  child_stderr_fd : Int
  child_stdin_channel : Bool
  child_stdout_channel : Bool
  child_stderr_channel : Bool
  child_watch_source : Bool
  child_stdin_source : Bool
  child_stdout_source : Bool
  child_stderr_source : Bool
  child_stdout : Option (List Nat)
  child_stderr : Option (List Nat)
  cancellable : Bool
  cancellable_handler_id : Nat
deriving DecidableEq, Repr

/-- Observable side effects of `udisks_spawned_job_release_resources`. -/
inductive ReleaseEffect
  | destroyedChildWatchSource
  | sentSigterm (pid : Nat)
  | attachedReaper (pid : Nat)
  | freedStdoutBuf
  | freedStderrBuf
  | unrefStdinChannel
  | unrefStdoutChannel
  | unrefStderrChannel
  | destroyedStdinSource
  | destroyedStdoutSource
  | destroyedStderrSource
  | closedFd (fd : Int)
  | disconnectedCancellable (id : Nat)
  | unrefCancellable
deriving DecidableEq, Repr

/-- Release block 1: destroy the child watch source if still registered. -/
def releaseWatch (s : SpawnedJob × List ReleaseEffect) : SpawnedJob × List ReleaseEffect :=
  if s.1.child_watch_source then
    ({ s.1 with child_watch_source := false }, s.2 ++ [ReleaseEffect.destroyedChildWatchSource])
  else s

/-- Release block 2: if a child is still recorded, SIGTERM it, attach a
self-destroying reaper watch, and clear `child_pid`. -/
def releaseKill (s : SpawnedJob × List ReleaseEffect) : SpawnedJob × List ReleaseEffect :=
  if s.1.child_pid ≠ 0 then
    ({ s.1 with child_pid := 0 },
      s.2 ++ [ReleaseEffect.sentSigterm s.1.child_pid, ReleaseEffect.attachedReaper s.1.child_pid])
  else s

/-- Release block 3: free `child_stdout` if present. -/
def releaseStdoutBuf (s : SpawnedJob × List ReleaseEffect) : SpawnedJob × List ReleaseEffect :=
  if s.1.child_stdout ≠ none then
    ({ s.1 with child_stdout := none }, s.2 ++ [ReleaseEffect.freedStdoutBuf])
  else s

/-- Release block 4: free `child_stderr` if present. -/
def releaseStderrBuf (s : SpawnedJob × List ReleaseEffect) : SpawnedJob × List ReleaseEffect :=
  if s.1.child_stderr ≠ none then
    ({ s.1 with child_stderr := none }, s.2 ++ [ReleaseEffect.freedStderrBuf])
  else s

/-- Release block 5: unref the stdin channel if present. -/
def releaseStdinChannel (s : SpawnedJob × List ReleaseEffect) : SpawnedJob × List ReleaseEffect :=
  if s.1.child_stdin_channel then
    ({ s.1 with child_stdin_channel := false }, s.2 ++ [ReleaseEffect.unrefStdinChannel])
  else s

/-- Release block 6: unref the stdout channel if present. -/
def releaseStdoutChannel (s : SpawnedJob × List ReleaseEffect) : SpawnedJob × List ReleaseEffect :=
  if s.1.child_stdout_channel then
    ({ s.1 with child_stdout_channel := false }, s.2 ++ [ReleaseEffect.unrefStdoutChannel])
  else s

/-- Release block 7: unref the stderr channel if present. -/
def releaseStderrChannel (s : SpawnedJob × List ReleaseEffect) : SpawnedJob × List ReleaseEffect :=
  if s.1.child_stderr_channel then
    ({ s.1 with child_stderr_channel := false }, s.2 ++ [ReleaseEffect.unrefStderrChannel])
  else s

/-- Release block 8: destroy the stdin source if present. -/
def releaseStdinSource (s : SpawnedJob × List ReleaseEffect) : SpawnedJob × List ReleaseEffect :=
  if s.1.child_stdin_source then
    ({ s.1 with child_stdin_source := false }, s.2 ++ [ReleaseEffect.destroyedStdinSource])
  else s

/-- Release block 9: destroy the stdout source if present. -/
def releaseStdoutSource (s : SpawnedJob × List ReleaseEffect) : SpawnedJob × List ReleaseEffect :=
  if s.1.child_stdout_source then
    ({ s.1 with child_stdout_source := false }, s.2 ++ [ReleaseEffect.destroyedStdoutSource])
  else s

/-- Release block 10: destroy the stderr source if present. -/
def releaseStderrSource (s : SpawnedJob × List ReleaseEffect) : SpawnedJob × List ReleaseEffect :=
  if s.1.child_stderr_source then
    ({ s.1 with child_stderr_source := false }, s.2 ++ [ReleaseEffect.destroyedStderrSource])
  else s

/-- Release block 11: close the stdin descriptor if open. -/
def releaseStdinFd (s : SpawnedJob × List ReleaseEffect) : SpawnedJob × List ReleaseEffect :=
  if s.1.child_stdin_fd ≠ -1 then
    ({ s.1 with child_stdin_fd := -1 }, s.2 ++ [ReleaseEffect.closedFd s.1.child_stdin_fd])
  else s

/-- Release block 12: close the stdout descriptor if open. -/
def releaseStdoutFd (s : SpawnedJob × List ReleaseEffect) : SpawnedJob × List ReleaseEffect :=
  if s.1.child_stdout_fd ≠ -1 then
    ({ s.1 with child_stdout_fd := -1 }, s.2 ++ [ReleaseEffect.closedFd s.1.child_stdout_fd])
  else s

/-- Release block 13: close the stderr descriptor if open. -/
def releaseStderrFd (s : SpawnedJob × List ReleaseEffect) : SpawnedJob × List ReleaseEffect :=
  if s.1.child_stderr_fd ≠ -1 then
    ({ s.1 with child_stderr_fd := -1 }, s.2 ++ [ReleaseEffect.closedFd s.1.child_stderr_fd])
  else s

/-- Release block 14: disconnect the cancellable handler if connected. -/
def releaseCancelHandler (s : SpawnedJob × List ReleaseEffect) : SpawnedJob × List ReleaseEffect :=
  if s.1.cancellable_handler_id > 0 then
    ({ s.1 with cancellable_handler_id := 0 },
      s.2 ++ [ReleaseEffect.disconnectedCancellable s.1.cancellable_handler_id])
  else s

/-- Release block 15: unref the cancellable if present. -/
def releaseCancellable (s : SpawnedJob × List ReleaseEffect) : SpawnedJob × List ReleaseEffect :=
  if s.1.cancellable then
    ({ s.1 with cancellable := false }, s.2 ++ [ReleaseEffect.unrefCancellable])
  else s

/-- `udisks_spawned_job_release_resources` from udisksspawnedjob.c: the
fifteen guarded teardown blocks in source order, returning the new job state
and the observable effects performed. -/
def udisks_spawned_job_release_resources (j : SpawnedJob) : SpawnedJob × List ReleaseEffect :=
  releaseCancellable (releaseCancelHandler (releaseStderrFd (releaseStdoutFd (releaseStdinFd
    (releaseStderrSource (releaseStdoutSource (releaseStdinSource
    (releaseStderrChannel (releaseStdoutChannel (releaseStdinChannel
    (releaseStderrBuf (releaseStdoutBuf (releaseKill (releaseWatch (j, [])))))))))))))))

/-- The job state with every sentinel that `release_resources` guards on at
its reset value. -/
def releasedState (j : SpawnedJob) : SpawnedJob :=
  { j with child_watch_source := false, child_pid := 0, child_stdout := none,
           child_stderr := none, child_stdin_channel := false, child_stdout_channel := false,
           child_stderr_channel := false, child_stdin_source := false,
           child_stdout_source := false, child_stderr_source := false,
           child_stdin_fd := -1, child_stdout_fd := -1, child_stderr_fd := -1,
           cancellable_handler_id := 0, cancellable := false }

/-- Observable side effects of `udisks_spawned_job_finalize`.  The
`zeroedAndFreedInput` effect records the contents of the `input_string`
buffer (its bytes followed by its NUL terminator) at the moment `g_free`
releases it. -/
inductive FinalizeEffect
  | released (effs : List ReleaseEffect)
  | freedCommandLine
  | zeroedAndFreedInput (buffer : List Nat)
deriving DecidableEq, Repr

/-- C `strlen` on a buffer given as its byte list. -/
def cstrlen : List Nat → Nat
  | [] => 0
  | b :: rest => if b = 0 then 0 else cstrlen rest + 1

/-- `memset (p, 0, n)` on a buffer of at least `n` bytes. -/
def memsetZero (buf : List Nat) (n : Nat) : List Nat :=
  List.replicate n 0 ++ buf.drop n

/-- `udisks_spawned_job_finalize` from udisksspawnedjob.c: release the
resources, free `command_line`, and if `input_string` is non-NULL overwrite
`strlen (input_string)` bytes of it with zero before freeing it (the
`main_context` unref carries no job state and is not modelled). -/
def udisks_spawned_job_finalize (j : SpawnedJob) : SpawnedJob × List FinalizeEffect :=
  match j.input_string with
  | none =>
      ((udisks_spawned_job_release_resources j).1,
        [FinalizeEffect.released (udisks_spawned_job_release_resources j).2,
         FinalizeEffect.freedCommandLine])
  | some s =>
      ((udisks_spawned_job_release_resources j).1,
        [FinalizeEffect.released (udisks_spawned_job_release_resources j).2,
         FinalizeEffect.freedCommandLine,
         FinalizeEffect.zeroedAndFreedInput (memsetZero (s ++ [0]) (cstrlen (s ++ [0])))])

/-- Observable side effects of `write_child_stdin`. -/
inductive StdinEffect
  | wrote (bytes : List Nat)
  | flushed
  | unrefStdinChannel
  | destroyedStdinSource
  | closedFd (fd : Int)
deriving DecidableEq, Repr

/-- `write_child_stdin` from udisksspawnedjob.c: the G_IO_OUT callback of the
stdin source.  `bytes_written` is the count the kernel accepted, reported by
`g_io_channel_write_chars` (at most the remaining slice's length, which is
what the call requests).  Returns the new job state, the callback's boolean
(TRUE keeps the source armed) and the effects performed. -/
def write_child_stdin (j : SpawnedJob) (bytes_written : Nat) :
    SpawnedJob × Bool × List StdinEffect :=
  match j.input_string, j.input_string_cursor with
  | some s, some cur =>
      if s.length ≤ cur then
        ({ j with
            child_stdin_channel := false, child_stdin_source := false,
            child_stdin_fd := -1 },
          false, [StdinEffect.unrefStdinChannel, StdinEffect.destroyedStdinSource,
            StdinEffect.closedFd j.child_stdin_fd])
      else
        ({ j with input_string_cursor := some (cur + bytes_written) }, true,
          [StdinEffect.wrote ((s.drop cur).take bytes_written), StdinEffect.flushed])
  | _, _ =>
      ({ j with
          child_stdin_channel := false, child_stdin_source := false,
          child_stdin_fd := -1 },
        false, [StdinEffect.unrefStdinChannel, StdinEffect.destroyedStdinSource,
          StdinEffect.closedFd j.child_stdin_fd])

/-- The payload of one `spawned-job-completed` signal emission:
`{error, status, standard_output, standard_error}` as passed to
`g_signal_emit`. -/
structure Completion where
  error : Option GErrorL
  status : Int
  standard_output : Option (List Nat)
  standard_error : Option (List Nat)
deriving DecidableEq, Repr

/-- A dispatch pending on the job's main context: an idle source attached by
`emit_completed_with_error_in_idle`, or the child-watch source having become
ready with the child's termination status (`pendingOut`/`pendingErr` are the
bytes `g_io_channel_read_to_end` will still drain from the two pipes). -/
inductive LoopTask
  | emitErrorIdle (e : GErrorL)
  | childWatch (status : Int) (pendingOut pendingErr : List Nat)
deriving DecidableEq, Repr

/-- A job together with its main context's pending dispatches and the
completions emitted so far. -/
structure LoopState where
  job : SpawnedJob
  queue : List LoopTask
  emissions : List Completion
deriving DecidableEq, Repr

/-- `emit_completed_with_error_in_idle` from udisksspawnedjob.c: attach an
idle source to the job's main context that will emit the completion with the
given error. -/
def emit_completed_with_error_in_idle (st : LoopState) (e : GErrorL) : LoopState :=
  { st with queue := st.queue ++ [LoopTask.emitErrorIdle e] }

/-- `emit_completed_with_error_in_idle_cb` from udisksspawnedjob.c: the idle
source's dispatch — emit the completion with the stored error, status 0 and
NULL output buffers, and return FALSE (the source is removed). -/
def emit_completed_with_error_in_idle_cb (st : LoopState) (e : GErrorL) : LoopState :=
  { st with emissions := st.emissions ++ [⟨some e, 0, none, none⟩] }

/-- `on_cancelled` from udisksspawnedjob.c: the GCancellable callback, run in
the thread that tripped the token — schedule the Cancelled idle on the
captured context. -/
def on_cancelled (st : LoopState) : LoopState :=
  emit_completed_with_error_in_idle st cancelledError

/-- `g_cancellable_cancel` as the job observes it: the connected
`on_cancelled` handler runs when a handler is connected; a token whose
handler was already disconnected affects nothing. -/
def g_cancellable_cancel (st : LoopState) : LoopState :=
  if st.job.cancellable_handler_id > 0 then on_cancelled st else st

/-- `child_watch_cb` from udisksspawnedjob.c: drain both pipes to EOF into
the buffers, emit the natural completion `{NULL, status, child_stdout,
child_stderr}`, clear `child_pid`, forget the watch source, and release all
resources.  (The surrounding ref/unref pair keeps the job alive and carries
no further state.) -/
def child_watch_cb (st : LoopState) (status : Int) (pendingOut pendingErr : List Nat) :
    LoopState :=
  let j1 := { st.job with
    child_stdout := st.job.child_stdout.map (fun b => b ++ pendingOut),
    child_stderr := st.job.child_stderr.map (fun b => b ++ pendingErr) }
  let em : Completion := ⟨none, status, j1.child_stdout, j1.child_stderr⟩
  let j2 := { j1 with child_pid := 0, child_watch_source := false }
  { st with job := (udisks_spawned_job_release_resources j2).1,
            emissions := st.emissions ++ [em] }

/-- One main-context iteration: dispatch the oldest pending task.  A
destroyed child-watch source (release ran) no longer dispatches; the idle
source attached by `emit_completed_with_error_in_idle` is never destroyed by
release and always dispatches. -/
def dispatchTask (st : LoopState) : LoopState :=
  match st.queue with
  | [] => st
  | t :: rest =>
    match t with
    | LoopTask.emitErrorIdle e => emit_completed_with_error_in_idle_cb { st with queue := rest } e
    | LoopTask.childWatch status po pe =>
        if st.job.child_watch_source then child_watch_cb { st with queue := rest } status po pe
        else { st with queue := rest }

/-- Run `n` main-context iterations. -/
def drainN : Nat → LoopState → LoopState
  | 0, st => st
  | n + 1, st => drainN n (dispatchTask st)

/-- Run the main context until the pending queue is empty (no task here
enqueues another task). -/
def drainAll (st : LoopState) : LoopState := drainN st.queue.length st

/-- The child exits: the child-watch source becomes ready and is queued for
dispatch with the termination status. -/
def stimChildExited (st : LoopState) (status : Int) (pendingOut pendingErr : List Nat) :
    LoopState :=
  { st with queue := st.queue ++ [LoopTask.childWatch status pendingOut pendingErr] }

/-- The caller drops its reference after completion: the job is finalized. -/
def finalizeState (st : LoopState) : LoopState :=
  { st with job := (udisks_spawned_job_finalize st.job).1 }

/-- The outcome of `g_shell_parse_argv` (external collaborator). -/
inductive ParseResult
  | ok (argv : List String)
  | err (e : GErrorL)
deriving DecidableEq, Repr

/-- The outcome of `g_spawn_async_with_pipes` (external collaborator): on
success the child pid and the three parent-side descriptors it stores (the
stdin one only when requested). -/
inductive SpawnResult
  | ok (pid : Nat) (stdinFd stdoutFd stderrFd : Int)
  | err (e : GErrorL)
deriving DecidableEq, Repr

/-- The external-collaborator outcomes `udisks_spawned_job_constructed`
encounters: whether the cancellable is already tripped, and the parse and
spawn results. -/
structure SpawnEnv where
  alreadyCancelled : Bool
  parse : ParseResult
  spawn : SpawnResult
deriving DecidableEq, Repr

/-- `udisks_spawned_job_init` plus the construct-property setters: a fresh
job with the three descriptors at -1 and the given construct-only
properties. -/
def udisks_spawned_job_init (cmd : String) (input : Option (List Nat))
    (cancellable : Bool) : SpawnedJob :=
  { command_line := cmd, input_string := input, input_string_cursor := none,
    child_pid := 0, child_stdin_fd := -1, child_stdout_fd := -1, child_stderr_fd := -1,
    child_stdin_channel := false, child_stdout_channel := false, child_stderr_channel := false,
    child_watch_source := false, child_stdin_source := false, child_stdout_source := false,
    child_stderr_source := false, child_stdout := none, child_stderr := none,
    cancellable := cancellable, cancellable_handler_id := 0 }

/-- `udisks_spawned_job_constructed` from udisksspawnedjob.c: create an own
cancellable when none was given; if the cancellable is already tripped,
schedule the Cancelled idle and stop; otherwise connect `on_cancelled`,
parse (failure: prefix the error and schedule its idle), spawn (failure:
prefix the error and schedule its idle), and on success register the child
watch, the stdin pump when stdin was piped, and the two output readers with
fresh empty buffers. -/
def udisks_spawned_job_constructed (cmd : String) (input : Option (List Nat))
    (hasCancellable : Bool) (env : SpawnEnv) : LoopState :=
  let j0 := udisks_spawned_job_init cmd input hasCancellable
  let j1 := if j0.cancellable then j0 else { j0 with cancellable := true }
  let st0 : LoopState := ⟨j1, [], []⟩
  if env.alreadyCancelled then
    emit_completed_with_error_in_idle st0 cancelledError
  else
    let st1 : LoopState := { st0 with job := { st0.job with cancellable_handler_id := 1 } }
    match env.parse with
    | ParseResult.err e =>
        emit_completed_with_error_in_idle st1
          { e with message := "Error parsing command-line `" ++ cmd ++ "': " ++ e.message }
    | ParseResult.ok _ =>
        match env.spawn with
        | SpawnResult.err e =>
            emit_completed_with_error_in_idle st1
              { e with message := "Error spawning command-line `" ++ cmd ++ "': " ++ e.message }
        | SpawnResult.ok pid stdinFd stdoutFd stderrFd =>
            let j2 := { st1.job with
              child_pid := pid,
              child_stdin_fd := if input.isSome then stdinFd else st1.job.child_stdin_fd,
              child_stdout_fd := stdoutFd,
              child_stderr_fd := stderrFd,
              child_watch_source := true }
            let j3 := if j2.child_stdin_fd ≠ (-1 : Int) then
                { j2 with
                  input_string_cursor := some 0,
                  child_stdin_channel := true, child_stdin_source := true }
              else j2
            let j4 := { j3 with
              child_stdout := some [], child_stdout_channel := true, child_stdout_source := true,
              child_stderr := some [], child_stderr_channel := true, child_stderr_source := true }
            { st1 with job := j4 }

/-- Claim C2: the default classification reports success with an empty message
if and only if the error is nil, the child exited normally (WIFEXITED) and
its exit code (WEXITSTATUS) is 0; in every other case the derived
job_completed event carries success = false. -/
theorem spawned_job_completed_default_success_iff
    (cmd : String) (error : Option GErrorL) (status : Int) (out err : String) :
    (((udisks_spawned_job_spawned_job_completed_default cmd error status out err).success = true ∧
      (udisks_spawned_job_spawned_job_completed_default cmd error status out err).message = "") ↔
      (error = none ∧ wifexited status = true ∧ wexitstatus status = 0)) ∧
    ((udisks_spawned_job_spawned_job_completed_default cmd error status out err).success =
      (error == none && wifexited status && wexitstatus status == 0)) := by
  cases error with
  | none =>
      simp only [udisks_spawned_job_spawned_job_completed_default]
      by_cases hex : wifexited status = true
      · by_cases hz : wexitstatus status = 0
        · simp [hex, hz]
        · simp [hex, hz]
      · simp [hex]
  | some e =>
      simp [udisks_spawned_job_spawned_job_completed_default]

theorem lookup_cons_getD (k a : Int) (v d : String) (t : List (Int × String)) :
    ((List.lookup k ((a, v) :: t)).getD d) = if k = a then v else ((List.lookup k t).getD d) := by
  by_cases h : k = a <;>
    · have hb : (k == a) = decide (k = a) := rfl
      simp [List.lookup, hb, h]

theorem get_signal_name_eq_lookup (k : Int) :
    get_signal_name k = ((signalNameTable.lookup k).getD "UNKNOWN_SIGNAL") := by
  simp only [signalNameTable, lookup_cons_getD, List.lookup_nil, Option.getD_none]
  unfold get_signal_name
  rfl

theorem wtermsig_nonneg (s : Int) : 0 ≤ wtermsig s :=
  Int.emod_nonneg s (by norm_num)

theorem wtermsig_lt (s : Int) : wtermsig s < 128 :=
  Int.emod_lt_of_pos s (by norm_num)

theorem wifsignaled_iff (s : Int) :
    wifsignaled s = true ↔ (1 ≤ wtermsig s ∧ wtermsig s ≤ 126) := by
  have h0 := wtermsig_nonneg s
  have h1 := wtermsig_lt s
  unfold wifsignaled
  generalize wtermsig s = v at *
  interval_cases v <;> decide

theorem wifexited_iff (s : Int) : wifexited s = true ↔ wtermsig s = 0 := by
  unfold wifexited
  exact beq_iff_eq

/-- Claim C4, counterexample: for a child killed by signal 15 the message the
default handler actually produces is not the message the claim states (the
code quotes with backticks and puts a space between the symbolic name and the
parenthesized number). -/
theorem spawned_job_signal_message_counterexample :
    (udisks_spawned_job_spawned_job_completed_default "c" none 15 "" "").message ≠
      claimSignalMessage "c" 15 "" "" := by
  decide

/-- Claim C4 (amended): for every completion with error nil where the child
died from a signal, the default handler reports failure with the message
"Command-line `<cmd>' was signaled with signal <SYMBOLIC> (<s>).\nstdout:
`...'\nstderr: `...'" — backtick-apostrophe quoting and a space before the
parenthesized signal number — where SYMBOLIC is drawn from the fixed
28-entry table (HUP, INT, QUIT, ILL, ABRT, FPE, KILL, SEGV, PIPE, ALRM,
TERM, USR1, USR2, CHLD, CONT, STOP, TSTP, TTIN, TTOU, BUS, POLL, PROF, SYS,
TRAP, URG, VTALRM, XCPU, XFSZ) and every signal number outside the table
renders as UNKNOWN_SIGNAL. -/
theorem spawned_job_completed_default_signal_message
    (cmd out err : String) (status : Int) (h : wifsignaled status = true) :
    (udisks_spawned_job_spawned_job_completed_default cmd none status out err).success = false ∧
    (udisks_spawned_job_spawned_job_completed_default cmd none status out err).message =
      "Command-line `" ++ cmd ++ "' was signaled with signal " ++
        ((signalNameTable.lookup (wtermsig status)).getD "UNKNOWN_SIGNAL") ++ " (" ++
        toString (wtermsig status) ++ ").\n" ++ "stdout: `" ++ out ++ "'\nstderr: `" ++ err ++ "'" ∧
    signalNameTable.length = 28 := by
  have hv := (wifsignaled_iff status).1 h
  have hex : wifexited status = false := by
    rw [← Bool.not_eq_true, wifexited_iff]
    omega
  refine ⟨?_, ?_, rfl⟩
  · simp [udisks_spawned_job_spawned_job_completed_default, hex]
  · simp [udisks_spawned_job_spawned_job_completed_default, hex, h,
      ← get_signal_name_eq_lookup]

theorem spawned_job_completed_default_signal_message_witness :
    (udisks_spawned_job_spawned_job_completed_default "c" none 15 "" "").success = false ∧
    (udisks_spawned_job_spawned_job_completed_default "c" none 15 "" "").message =
      "Command-line `" ++ "c" ++ "' was signaled with signal " ++
        ((signalNameTable.lookup (wtermsig 15)).getD "UNKNOWN_SIGNAL") ++ " (" ++
        toString (wtermsig 15) ++ ").\n" ++ "stdout: `" ++ "" ++ "'\nstderr: `" ++ "" ++ "'" ∧
    signalNameTable.length = 28 :=
  spawned_job_completed_default_signal_message "c" "" "" 15 (by decide)

/-- Claim C8, counterexample: two records with equal mount path "m" and device
numbers 0 and 2^32 compare as equal — the difference of the `dev_t` values is
truncated to the low 32 bits of a `gint`, so `compare = 0` does not imply
equal device numbers. -/
theorem udisks_mount_compare_counterexample :
    udisks_mount_compare ⟨[109], 0⟩ ⟨[109], 4294967296⟩ = 0 ∧
    (0 : Nat) ≠ 4294967296 := by
  constructor
  · decide
  · decide

theorem strcmpBytes_neg (a b : List Nat) : strcmpBytes a b = - strcmpBytes b a := by
  induction a generalizing b with
  | nil => cases b <;> simp [strcmpBytes]
  | cons x xs ih =>
    cases b with
    | nil => simp [strcmpBytes]
    | cons y ys =>
      by_cases h : x = y
      · subst h
        simp [strcmpBytes, ih ys]
      · have h' : ¬ y = x := fun e => h e.symm
        simp only [strcmpBytes, if_neg h, if_neg h']
        omega

theorem strcmpBytes_eq_zero (a b : List Nat) (ha : 0 ∉ a) (hb : 0 ∉ b) :
    strcmpBytes a b = 0 ↔ a = b := by
  induction a generalizing b with
  | nil =>
    cases b with
    | nil => simp [strcmpBytes]
    | cons y ys =>
      have hy : y ≠ 0 := fun e => hb (by simp [e])
      simp [strcmpBytes]
      omega
  | cons x xs ih =>
    cases b with
    | nil =>
      have hx : x ≠ 0 := fun e => ha (by simp [e])
      simp [strcmpBytes]
      omega
    | cons y ys =>
      have hxs : 0 ∉ xs := fun m => ha (List.mem_cons_of_mem _ m)
      have hys : 0 ∉ ys := fun m => hb (List.mem_cons_of_mem _ m)
      by_cases h : x = y
      · subst h
        simp [strcmpBytes, ih ys hxs hys]
      · simp [strcmpBytes, h]
        omega

theorem strcmpBytes_trans (a b c : List Nat) (hb : 0 ∉ b) (hc : 0 ∉ c)
    (h1 : strcmpBytes a b < 0) (h2 : strcmpBytes b c < 0) : strcmpBytes a c < 0 := by
  induction a generalizing b c with
  | nil =>
    cases b with
    | nil => simp [strcmpBytes] at h1
    | cons y ys =>
      cases c with
      | nil =>
        simp [strcmpBytes] at h2
        omega
      | cons z zs =>
        have hz : z ≠ 0 := fun e => hc (by simp [e])
        simp [strcmpBytes]
        omega
  | cons x xs ih =>
    cases b with
    | nil =>
      simp [strcmpBytes] at h1
      omega
    | cons y ys =>
      cases c with
      | nil =>
        simp [strcmpBytes] at h2
        omega
      | cons z zs =>
        have hys : 0 ∉ ys := fun m => hb (List.mem_cons_of_mem _ m)
        have hzs : 0 ∉ zs := fun m => hc (List.mem_cons_of_mem _ m)
        by_cases hxy : x = y
        · subst hxy
          by_cases hxz : x = z
          · subst hxz
            simp [strcmpBytes] at h1 h2 ⊢
            exact ih ys zs hys hzs h1 h2
          · simp only [strcmpBytes, if_neg hxz] at h2 ⊢
            exact h2
        · simp [strcmpBytes, hxy] at h1
          by_cases hyz : y = z
          · subst hyz
            simp [strcmpBytes, hxy]
            omega
          · simp [strcmpBytes, hyz] at h2
            have hxz : ¬ x = z := by omega
            simp [strcmpBytes, hxz]
            omega

theorem gint_dev_sub (a b : Nat) (ha : a < 2147483648) (hb : b < 2147483648) :
    gintOfUInt64 ((a + 18446744073709551616 - b) % 18446744073709551616) = (a : Int) - b := by
  unfold gintOfUInt64
  split_ifs <;> omega

theorem udisks_mount_compare_eq (a b : UDisksMount)
    (ha : a.dev < 2147483648) (hb : b.dev < 2147483648) :
    udisks_mount_compare a b =
      if strcmpBytes b.mount_path a.mount_path ≠ 0 then strcmpBytes b.mount_path a.mount_path
      else (a.dev : Int) - b.dev := by
  unfold udisks_mount_compare
  split_ifs with h
  · rfl
  · exact gint_dev_sub a.dev b.dev ha hb

/-- Claim C8 (amended): restricted to mount records whose device numbers are
below 2^31 (so that the `dev_t` difference survives the narrowing to the
32-bit `gint ret` with its sign intact), `udisks_mount_compare` is a total
order comparing first by mount path lexicographically in descending order and
then by device number in ascending order: `compare a b` is negative exactly
when `compare b a` is positive, `compare a b = 0` exactly when the records
have equal mount path and equal device number, and the order is transitive.
Without the bound the narrowing breaks all three properties. -/
theorem udisks_mount_compare_order (a b c : UDisksMount)
    (haz : 0 ∉ a.mount_path) (hbz : 0 ∉ b.mount_path) (hcz : 0 ∉ c.mount_path)
    (had : a.dev < 2147483648) (hbd : b.dev < 2147483648) (hcd : c.dev < 2147483648) :
    (udisks_mount_compare a b < 0 ↔ 0 < udisks_mount_compare b a) ∧
    (udisks_mount_compare a b = 0 ↔ (a.mount_path = b.mount_path ∧ a.dev = b.dev)) ∧
    (udisks_mount_compare a b < 0 → udisks_mount_compare b c < 0 →
      udisks_mount_compare a c < 0) := by
  have hba := strcmpBytes_eq_zero b.mount_path a.mount_path hbz haz
  have hcb := strcmpBytes_eq_zero c.mount_path b.mount_path hcz hbz
  have hca := strcmpBytes_eq_zero c.mount_path a.mount_path hcz haz
  have nab : strcmpBytes a.mount_path b.mount_path = - strcmpBytes b.mount_path a.mount_path :=
    strcmpBytes_neg _ _
  refine ⟨?_, ?_, ?_⟩
  · rw [udisks_mount_compare_eq a b had hbd, udisks_mount_compare_eq b a hbd had, nab]
    split_ifs <;> omega
  · rw [udisks_mount_compare_eq a b had hbd]
    split_ifs with h
    · refine iff_of_false h ?_
      rintro ⟨hp, -⟩
      exact h (hba.2 hp.symm)
    · have hp : b.mount_path = a.mount_path := hba.1 (by omega)
      constructor
      · intro hd
        exact ⟨hp.symm, by omega⟩
      · rintro ⟨-, hd⟩
        omega
  · rw [udisks_mount_compare_eq a b had hbd, udisks_mount_compare_eq b c hbd hcd,
      udisks_mount_compare_eq a c had hcd]
    split_ifs with h1 h2 h3 h2 h3 h3 h3
    · intro h4 h5
      exact strcmpBytes_trans c.mount_path b.mount_path a.mount_path hbz haz h5 h4
    · intro h4 h5
      have hp : c.mount_path = a.mount_path := hca.1 (by omega)
      rw [hp, nab] at h5
      omega
    · intro h4 h5
      have hp : c.mount_path = b.mount_path := hcb.1 (by omega)
      rw [hp]
      exact h4
    · intro h4 h5
      have hp2 : c.mount_path = b.mount_path := hcb.1 (by omega)
      have hp3 : c.mount_path = a.mount_path := hca.1 (by omega)
      have hp0 : b.mount_path = a.mount_path := by rw [← hp2, hp3]
      have h6 : strcmpBytes b.mount_path a.mount_path = 0 := hba.2 hp0
      omega
    · intro h4 h5
      have hp : b.mount_path = a.mount_path := hba.1 (by omega)
      rw [← hp]
      exact h5
    · intro h4 h5
      have hp1 : b.mount_path = a.mount_path := hba.1 (by omega)
      have hp3 : c.mount_path = a.mount_path := hca.1 (by omega)
      have h0 : strcmpBytes c.mount_path b.mount_path = 0 := hcb.2 (by rw [hp1, hp3])
      omega
    · intro h4 h5
      have hp1 : b.mount_path = a.mount_path := hba.1 (by omega)
      have hp2 : c.mount_path = b.mount_path := hcb.1 (by omega)
      have h0 : strcmpBytes c.mount_path a.mount_path = 0 := hca.2 (by rw [hp2, hp1])
      omega
    · intro h4 h5
      omega

theorem udisks_mount_compare_order_witness :
    (udisks_mount_compare ⟨[97], 0⟩ ⟨[98], 1⟩ < 0 ↔ 0 < udisks_mount_compare ⟨[98], 1⟩ ⟨[97], 0⟩) ∧
    (udisks_mount_compare ⟨[97], 0⟩ ⟨[98], 1⟩ = 0 ↔
      (([97] : List Nat) = [98] ∧ (0 : Nat) = 1)) ∧
    (udisks_mount_compare ⟨[97], 0⟩ ⟨[98], 1⟩ < 0 → udisks_mount_compare ⟨[98], 1⟩ ⟨[99], 2⟩ < 0 →
      udisks_mount_compare ⟨[97], 0⟩ ⟨[99], 2⟩ < 0) :=
  udisks_mount_compare_order ⟨[97], 0⟩ ⟨[98], 1⟩ ⟨[99], 2⟩
    (by decide) (by decide) (by decide) (by decide) (by decide) (by decide)

/-- Claim C9: at byte 0x80 the code emits `_ffffff80` — the two-digit-hex
claim (and the function's own documentation) says `_80`; on bytes below 0x80,
underscore included, code and claim agree. -/
theorem safe_append_high_byte_bug :
    udisks_safe_append_to_object_path [] [128] = "_ffffff80".data ∧
    claimSafeAppend [] [128] = "_80".data ∧
    udisks_safe_append_to_object_path [] [128] ≠ claimSafeAppend [] [128] ∧
    udisks_safe_append_to_object_path [] [65, 122, 48, 95, 46] =
      claimSafeAppend [] [65, 122, 48, 95, 46] := by
  refine ⟨by decide, by decide, by decide, by decide⟩

/-- Claim C10: `udisks_decode_udev_string` maps a NULL input to NULL rather
than to an empty string, and for every non-NULL input it returns a non-NULL
(possibly empty) string. -/
theorem udisks_decode_udev_string_null :
    udisks_decode_udev_string none = none ∧
    ∀ s : List Nat, (udisks_decode_udev_string (some s)).isSome = true := by
  refine ⟨rfl, fun s => ?_⟩
  simp only [udisks_decode_udev_string]
  cases h : gUtf8Validate (decodeUdevLoop s) 0 <;> simp

theorem releaseWatch_state (s : SpawnedJob × List ReleaseEffect) :
    (releaseWatch s).1 = { s.1 with child_watch_source := false } := by
  unfold releaseWatch
  split
  · rfl
  · rename_i h
    have hb : s.1.child_watch_source = false := by
      revert h
      cases s.1.child_watch_source <;> simp
    rw [← hb]

theorem releaseKill_state (s : SpawnedJob × List ReleaseEffect) :
    (releaseKill s).1 = { s.1 with child_pid := 0 } := by
  unfold releaseKill
  split
  · rfl
  · rename_i h
    have hb : s.1.child_pid = 0 := not_not.mp h
    rw [← hb]

theorem releaseStdoutBuf_state (s : SpawnedJob × List ReleaseEffect) :
    (releaseStdoutBuf s).1 = { s.1 with child_stdout := none } := by
  unfold releaseStdoutBuf
  split
  · rfl
  · rename_i h
    have hb : s.1.child_stdout = none := not_not.mp h
    rw [← hb]

theorem releaseStderrBuf_state (s : SpawnedJob × List ReleaseEffect) :
    (releaseStderrBuf s).1 = { s.1 with child_stderr := none } := by
  unfold releaseStderrBuf
  split
  · rfl
  · rename_i h
    have hb : s.1.child_stderr = none := not_not.mp h
    rw [← hb]

theorem releaseStdinChannel_state (s : SpawnedJob × List ReleaseEffect) :
    (releaseStdinChannel s).1 = { s.1 with child_stdin_channel := false } := by
  unfold releaseStdinChannel
  split
  · rfl
  · rename_i h
    have hb : s.1.child_stdin_channel = false := by
      revert h
      cases s.1.child_stdin_channel <;> simp
    rw [← hb]

theorem releaseStdoutChannel_state (s : SpawnedJob × List ReleaseEffect) :
    (releaseStdoutChannel s).1 = { s.1 with child_stdout_channel := false } := by
  unfold releaseStdoutChannel
  split
  · rfl
  · rename_i h
    have hb : s.1.child_stdout_channel = false := by
      revert h
      cases s.1.child_stdout_channel <;> simp
    rw [← hb]

theorem releaseStderrChannel_state (s : SpawnedJob × List ReleaseEffect) :
    (releaseStderrChannel s).1 = { s.1 with child_stderr_channel := false } := by
  unfold releaseStderrChannel
  split
  · rfl
  · rename_i h
    have hb : s.1.child_stderr_channel = false := by
      revert h
      cases s.1.child_stderr_channel <;> simp
    rw [← hb]

theorem releaseStdinSource_state (s : SpawnedJob × List ReleaseEffect) :
    (releaseStdinSource s).1 = { s.1 with child_stdin_source := false } := by
  unfold releaseStdinSource
  split
  · rfl
  · rename_i h
    have hb : s.1.child_stdin_source = false := by
      revert h
      cases s.1.child_stdin_source <;> simp
    rw [← hb]

theorem releaseStdoutSource_state (s : SpawnedJob × List ReleaseEffect) :
    (releaseStdoutSource s).1 = { s.1 with child_stdout_source := false } := by
  unfold releaseStdoutSource
  split
  · rfl
  · rename_i h
    have hb : s.1.child_stdout_source = false := by
      revert h
      cases s.1.child_stdout_source <;> simp
    rw [← hb]

theorem releaseStderrSource_state (s : SpawnedJob × List ReleaseEffect) :
    (releaseStderrSource s).1 = { s.1 with child_stderr_source := false } := by
  unfold releaseStderrSource
  split
  · rfl
  · rename_i h
    have hb : s.1.child_stderr_source = false := by
      revert h
      cases s.1.child_stderr_source <;> simp
    rw [← hb]

theorem releaseStdinFd_state (s : SpawnedJob × List ReleaseEffect) :
    (releaseStdinFd s).1 = { s.1 with child_stdin_fd := -1 } := by
  unfold releaseStdinFd
  split
  · rfl
  · rename_i h
    have hb : s.1.child_stdin_fd = -1 := not_not.mp h
    rw [← hb]

theorem releaseStdoutFd_state (s : SpawnedJob × List ReleaseEffect) :
    (releaseStdoutFd s).1 = { s.1 with child_stdout_fd := -1 } := by
  unfold releaseStdoutFd
  split
  · rfl
  · rename_i h
    have hb : s.1.child_stdout_fd = -1 := not_not.mp h
    rw [← hb]

theorem releaseStderrFd_state (s : SpawnedJob × List ReleaseEffect) :
    (releaseStderrFd s).1 = { s.1 with child_stderr_fd := -1 } := by
  unfold releaseStderrFd
  split
  · rfl
  · rename_i h
    have hb : s.1.child_stderr_fd = -1 := not_not.mp h
    rw [← hb]

theorem releaseCancelHandler_state (s : SpawnedJob × List ReleaseEffect) :
    (releaseCancelHandler s).1 = { s.1 with cancellable_handler_id := 0 } := by
  unfold releaseCancelHandler
  split
  · rfl
  · rename_i h
    have hb : s.1.cancellable_handler_id = 0 := by omega
    rw [← hb]

theorem releaseCancellable_state (s : SpawnedJob × List ReleaseEffect) :
    (releaseCancellable s).1 = { s.1 with cancellable := false } := by
  unfold releaseCancellable
  split
  · rfl
  · rename_i h
    have hb : s.1.cancellable = false := by
      revert h
      cases s.1.cancellable <;> simp
    rw [← hb]

theorem release_resources_state (j : SpawnedJob) :
    (udisks_spawned_job_release_resources j).1 = releasedState j := by
  unfold udisks_spawned_job_release_resources
  rw [releaseCancellable_state, releaseCancelHandler_state, releaseStderrFd_state,
    releaseStdoutFd_state, releaseStdinFd_state, releaseStderrSource_state,
    releaseStdoutSource_state, releaseStdinSource_state, releaseStderrChannel_state,
    releaseStdoutChannel_state, releaseStdinChannel_state, releaseStderrBuf_state,
    releaseStdoutBuf_state, releaseKill_state, releaseWatch_state]
  rfl

theorem release_resources_released (j : SpawnedJob) :
    udisks_spawned_job_release_resources (releasedState j) = (releasedState j, []) := rfl

/-- Claim C6: the release routine is idempotent: for every Job state —
including partially constructed states where some resources were never
created — running release twice yields the same state as running it once
(and the second run performs no effects), because each teardown step guards
on its own sentinel and resets that sentinel after acting. -/
theorem release_resources_idempotent (j : SpawnedJob) :
    (udisks_spawned_job_release_resources ((udisks_spawned_job_release_resources j).1)).1 =
      (udisks_spawned_job_release_resources j).1 ∧
    (udisks_spawned_job_release_resources ((udisks_spawned_job_release_resources j).1)).2 =
      [] := by
  rw [release_resources_state j, release_resources_released j]
  exact ⟨rfl, rfl⟩

theorem cstrlen_append_zero (s : List Nat) (hz : 0 ∉ s) : cstrlen (s ++ [0]) = s.length := by
  induction s with
  | nil => rfl
  | cons b rest ih =>
      have hb : b ≠ 0 := fun e => hz (by simp [e])
      have hrest : 0 ∉ rest := fun m => hz (List.mem_cons_of_mem _ m)
      simp [cstrlen, hb, ih hrest]

theorem memsetZero_strlen (s : List Nat) :
    memsetZero (s ++ [0]) s.length = List.replicate (s.length + 1) 0 := by
  unfold memsetZero
  rw [List.drop_left, List.replicate_succ']

/-- Claim C7: on every path that destroys a Job constructed with a non-nil
input_bytes, the buffer holding input_bytes is entirely zero — all
`strlen + 1` bytes of it — at the moment its memory is released. -/
theorem finalize_zeroes_input (j : SpawnedJob) (s : List Nat)
    (hin : j.input_string = some s) (hz : 0 ∉ s) :
    FinalizeEffect.zeroedAndFreedInput (List.replicate (s.length + 1) 0) ∈
      (udisks_spawned_job_finalize j).2 := by
  simp only [udisks_spawned_job_finalize, hin]
  rw [cstrlen_append_zero s hz, memsetZero_strlen s]
  simp

theorem finalize_zeroes_input_witness :
    FinalizeEffect.zeroedAndFreedInput (List.replicate (([104, 105] : List Nat).length + 1) 0) ∈
      (udisks_spawned_job_finalize
        ⟨"cat", some [104, 105], some 0, 7, 5, 6, 8, true, true, true, true, true, true, true,
          some [], some [], true, 1⟩).2 :=
  finalize_zeroes_input
    ⟨"cat", some [104, 105], some 0, 7, 5, 6, 8, true, true, true, true, true, true, true,
      some [], some [], true, 1⟩
    [104, 105] rfl (by decide)

/-- Claim C5: on every writability callback the stdin pump writes bytes from
input_bytes starting at input_cursor, advances the cursor by exactly the
number of bytes the kernel accepted, and keeps the source armed; when the
remaining slice is empty, or input_bytes is absent, it instead closes the
parent-side stdin descriptor, destroys the stdin source, and resets the
descriptor field to -1 — no sentinel byte is ever written. -/
theorem write_child_stdin_spec (j : SpawnedJob) (k : Nat) :
    (∀ s cur, j.input_string = some s → j.input_string_cursor = some cur →
      cur < s.length → k ≤ s.length - cur →
      write_child_stdin j k =
        ({ j with input_string_cursor := some (cur + k) }, true,
          [StdinEffect.wrote ((s.drop cur).take k), StdinEffect.flushed])) ∧
    (∀ s cur, j.input_string = some s → j.input_string_cursor = some cur →
      s.length ≤ cur →
      write_child_stdin j k =
        ({ j with
            child_stdin_channel := false, child_stdin_source := false,
            child_stdin_fd := -1 },
          false, [StdinEffect.unrefStdinChannel, StdinEffect.destroyedStdinSource,
            StdinEffect.closedFd j.child_stdin_fd])) ∧
    (j.input_string_cursor = none →
      write_child_stdin j k =
        ({ j with
            child_stdin_channel := false, child_stdin_source := false,
            child_stdin_fd := -1 },
          false, [StdinEffect.unrefStdinChannel, StdinEffect.destroyedStdinSource,
            StdinEffect.closedFd j.child_stdin_fd])) := by
  refine ⟨?_, ?_, ?_⟩
  · intro s cur h1 h2 h3 h4
    simp only [write_child_stdin, h1, h2]
    rw [if_neg (by omega)]
  · intro s cur h1 h2 h3
    simp only [write_child_stdin, h1, h2]
    rw [if_pos h3]
  · intro h1
    cases h2 : j.input_string with
    | none => simp only [write_child_stdin, h1, h2]
    | some s => simp only [write_child_stdin, h1, h2]

theorem write_child_stdin_spec_witness :
    (write_child_stdin
        ⟨"cat", some [104, 105], some 0, 7, 5, 6, 8, true, true, true, true, true, true, true,
          some [], some [], true, 1⟩ 1 =
      (⟨"cat", some [104, 105], some 1, 7, 5, 6, 8, true, true, true, true, true, true, true,
          some [], some [], true, 1⟩, true,
        [StdinEffect.wrote [104], StdinEffect.flushed])) ∧
    (write_child_stdin
        ⟨"cat", some [104, 105], some 2, 7, 5, 6, 8, true, true, true, true, true, true, true,
          some [], some [], true, 1⟩ 0 =
      (⟨"cat", some [104, 105], some 2, 7, -1, 6, 8, false, true, true, true, false, true, true,
          some [], some [], true, 1⟩, false,
        [StdinEffect.unrefStdinChannel, StdinEffect.destroyedStdinSource,
          StdinEffect.closedFd 5])) := by
  constructor
  · have h := (write_child_stdin_spec
      ⟨"cat", some [104, 105], some 0, 7, 5, 6, 8, true, true, true, true, true, true, true,
        some [], some [], true, 1⟩ 1).1 [104, 105] 0 rfl rfl (by decide) (by decide)
    rw [h]
    decide
  · have h := (write_child_stdin_spec
      ⟨"cat", some [104, 105], some 2, 7, 5, 6, 8, true, true, true, true, true, true, true,
        some [], some [], true, 1⟩ 0).2.1 [104, 105] 2 rfl rfl (by decide)
    rw [h]

/-- Claim C1, counterexample: the code has no completed_once latch.  When the
child has exited (the child-watch dispatch is pending) and the cancellation
token then trips before that dispatch runs, `on_cancelled` queues its idle;
the child-exit callback emits the natural completion and releases resources,
but release does not remove the already-attached idle source, which then
emits a second, Cancelled completion: two completion events for one Job. -/
theorem spawned_job_double_completion_counterexample :
    (drainN 2 (g_cancellable_cancel (stimChildExited
      (udisks_spawned_job_constructed "sleep 60" none false
        ⟨false, ParseResult.ok ["sleep", "60"], SpawnResult.ok 42 (-1) 5 6⟩)
      0 [] []))).emissions =
      [⟨none, 0, some [], some []⟩, ⟨some cancelledError, 0, none, none⟩] := by
  decide

/-- Claim C1 (amended): each execution path taken by itself emits the
completion event exactly once — normal child exit, cancellation before exit
(with the job finalized on completion, after which the destroyed child-watch
source no longer dispatches), token already tripped at construction, parse
failure, and spawn failure.  There is no completed_once latch, however: when
the cancellation idle callback is queued while the child-exit dispatch is
pending, the event is emitted twice (see the counterexample). -/
theorem spawned_job_single_completion_paths
    (cmd : String) (input : Option (List Nat)) (hc : Bool)
    (ac : Bool) (par : ParseResult) (sp : SpawnResult)
    (e : GErrorL) (argv : List String) (pid : Nat) (fd0 fd1 fd2 : Int)
    (status : Int) (po pe : List Nat) :
    (ac = true →
      (drainAll (udisks_spawned_job_constructed cmd input hc
        ⟨ac, par, sp⟩)).emissions.length = 1) ∧
    (ac = false → par = ParseResult.err e →
      (drainAll (udisks_spawned_job_constructed cmd input hc
        ⟨ac, par, sp⟩)).emissions.length = 1) ∧
    (ac = false → par = ParseResult.ok argv → sp = SpawnResult.err e →
      (drainAll (udisks_spawned_job_constructed cmd input hc
        ⟨ac, par, sp⟩)).emissions.length = 1) ∧
    (ac = false → par = ParseResult.ok argv → sp = SpawnResult.ok pid fd0 fd1 fd2 →
      (drainAll (stimChildExited (udisks_spawned_job_constructed cmd input hc
        ⟨ac, par, sp⟩) status po pe)).emissions.length = 1) ∧
    (ac = false → par = ParseResult.ok argv → sp = SpawnResult.ok pid fd0 fd1 fd2 →
      (drainAll (stimChildExited (finalizeState (drainAll (g_cancellable_cancel
        (udisks_spawned_job_constructed cmd input hc
          ⟨ac, par, sp⟩)))) status po pe)).emissions.length = 1) := by
  refine ⟨?_, ?_, ?_, ?_, ?_⟩
  · intro h1
    subst h1
    cases hc <;> cases input <;>
      simp [udisks_spawned_job_constructed, udisks_spawned_job_init,
        emit_completed_with_error_in_idle, drainAll, drainN, dispatchTask,
        emit_completed_with_error_in_idle_cb]
  · intro h1 h2
    subst h1
    subst h2
    cases hc <;> cases input <;>
      simp [udisks_spawned_job_constructed, udisks_spawned_job_init,
        emit_completed_with_error_in_idle, drainAll, drainN, dispatchTask,
        emit_completed_with_error_in_idle_cb]
  · intro h1 h2 h3
    subst h1
    subst h2
    subst h3
    cases hc <;> cases input <;>
      simp [udisks_spawned_job_constructed, udisks_spawned_job_init,
        emit_completed_with_error_in_idle, drainAll, drainN, dispatchTask,
        emit_completed_with_error_in_idle_cb]
  · intro h1 h2 h3
    subst h1
    subst h2
    subst h3
    cases hc <;> cases input <;>
      simp [udisks_spawned_job_constructed, udisks_spawned_job_init, stimChildExited,
        drainAll, drainN, dispatchTask, child_watch_cb, apply_ite,
        emit_completed_with_error_in_idle_cb]
  · intro h1 h2 h3
    subst h1
    subst h2
    subst h3
    cases hc <;> cases input <;>
      simp [udisks_spawned_job_constructed, udisks_spawned_job_init, stimChildExited,
        drainAll, drainN, dispatchTask, child_watch_cb, apply_ite, finalizeState,
        udisks_spawned_job_finalize, release_resources_state, releasedState,
        g_cancellable_cancel, on_cancelled, emit_completed_with_error_in_idle,
        emit_completed_with_error_in_idle_cb]

theorem spawned_job_single_completion_paths_witness :
    (drainAll (udisks_spawned_job_constructed "true" none false
      ⟨true, ParseResult.ok ["true"], SpawnResult.ok 42 (-1) 5 6⟩)).emissions.length = 1 ∧
    (drainAll (stimChildExited (udisks_spawned_job_constructed "true" none false
      ⟨false, ParseResult.ok ["true"], SpawnResult.ok 42 (-1) 5 6⟩) 0 [] [])).emissions.length
      = 1 ∧
    (drainAll (stimChildExited (finalizeState (drainAll (g_cancellable_cancel
      (udisks_spawned_job_constructed "true" none false
        ⟨false, ParseResult.ok ["true"], SpawnResult.ok 42 (-1) 5 6⟩))))
      0 [] [])).emissions.length = 1 :=
  ⟨(spawned_job_single_completion_paths "true" none false true (ParseResult.ok ["true"])
      (SpawnResult.ok 42 (-1) 5 6) cancelledError ["true"] 42 (-1) 5 6 0 [] []).1 rfl,
   (spawned_job_single_completion_paths "true" none false false (ParseResult.ok ["true"])
      (SpawnResult.ok 42 (-1) 5 6) cancelledError ["true"] 42 (-1) 5 6 0 [] []).2.2.2.1
      rfl rfl rfl,
   (spawned_job_single_completion_paths "true" none false false (ParseResult.ok ["true"])
      (SpawnResult.ok 42 (-1) 5 6) cancelledError ["true"] 42 (-1) 5 6 0 [] []).2.2.2.2
      rfl rfl rfl⟩

/-- Claim C3: whenever the cancellation token trips before the Job completes
naturally — including a token already tripped when the Job is constructed —
an idle callback is scheduled on the captured loop, and its dispatch emits
the completion event carrying the Cancelled error, raw status 0, and NULL
stdout and stderr buffers. -/
theorem cancellation_emits_cancelled_completion
    (st : LoopState) (cmd : String) (input : Option (List Nat)) (hc : Bool)
    (ac : Bool) (par : ParseResult) (sp : SpawnResult) :
    ((on_cancelled st).queue = st.queue ++ [LoopTask.emitErrorIdle cancelledError] ∧
      (on_cancelled st).emissions = st.emissions) ∧
    (st.queue.head? = some (LoopTask.emitErrorIdle cancelledError) →
      (dispatchTask st).emissions =
        st.emissions ++ [⟨some cancelledError, 0, none, none⟩]) ∧
    (ac = true →
      (udisks_spawned_job_constructed cmd input hc ⟨ac, par, sp⟩).queue =
        [LoopTask.emitErrorIdle cancelledError] ∧
      (udisks_spawned_job_constructed cmd input hc ⟨ac, par, sp⟩).emissions = []) := by
  refine ⟨⟨?_, ?_⟩, ?_, ?_⟩
  · simp [on_cancelled, emit_completed_with_error_in_idle]
  · simp [on_cancelled, emit_completed_with_error_in_idle]
  · intro h
    cases hq : st.queue with
    | nil =>
        rw [hq] at h
        simp at h
    | cons t rest =>
        rw [hq] at h
        simp at h
        subst h
        simp [dispatchTask, hq, emit_completed_with_error_in_idle_cb]
  · intro h
    subst h
    cases hc <;> cases input <;>
      simp [udisks_spawned_job_constructed, udisks_spawned_job_init,
        emit_completed_with_error_in_idle]

theorem cancellation_emits_cancelled_completion_witness :
    ((on_cancelled ⟨udisks_spawned_job_init "x" none false, [], []⟩).queue =
        ([] : List LoopTask) ++ [LoopTask.emitErrorIdle cancelledError] ∧
      (on_cancelled ⟨udisks_spawned_job_init "x" none false, [], []⟩).emissions =
        ([] : List Completion)) ∧
    ((dispatchTask ⟨udisks_spawned_job_init "x" none false,
        [LoopTask.emitErrorIdle cancelledError], []⟩).emissions =
      ([] : List Completion) ++ [⟨some cancelledError, 0, none, none⟩]) ∧
    ((udisks_spawned_job_constructed "x" none false
        ⟨true, ParseResult.ok ["x"], SpawnResult.ok 42 (-1) 5 6⟩).queue =
      [LoopTask.emitErrorIdle cancelledError] ∧
      (udisks_spawned_job_constructed "x" none false
        ⟨true, ParseResult.ok ["x"], SpawnResult.ok 42 (-1) 5 6⟩).emissions = []) := by
  have h1 := (cancellation_emits_cancelled_completion
    ⟨udisks_spawned_job_init "x" none false, [], []⟩ "x" none false true
    (ParseResult.ok ["x"]) (SpawnResult.ok 42 (-1) 5 6)).1
  have h2 := (cancellation_emits_cancelled_completion
    ⟨udisks_spawned_job_init "x" none false, [LoopTask.emitErrorIdle cancelledError], []⟩
    "x" none false true (ParseResult.ok ["x"]) (SpawnResult.ok 42 (-1) 5 6)).2.1 rfl
  have h3 := (cancellation_emits_cancelled_completion
    ⟨udisks_spawned_job_init "x" none false, [], []⟩ "x" none false true
    (ParseResult.ok ["x"]) (SpawnResult.ok 42 (-1) 5 6)).2.2 rfl
  exact ⟨h1, h2, h3⟩
